import Mathlib

/-!
Verification of the phone-number lifecycle and agent-binding state machine of
the voxcalls backend (`app/api/v1/endpoints/phone_numbers.py` and the phone
pool endpoints of `app/api/v1/endpoints/admin.py`).

The handlers are embedded as pure functions over an explicit database state.
Every external-provider call (Twilio purchase, voice-provider import, voice-
provider assign/unassign) is an independently-failing remote call, so its
outcome enters each operation as an explicit parameter.  A FastAPI handler
that raises an `HTTPException` before reaching `await db.commit()` persists
nothing: the session dependency (`app/core/deps.py`, `get_db`) closes the
session without commit, discarding all in-memory ORM mutations.  The
embedding therefore models each handler as `Except`: an error result leaves
the database unchanged, an ok result carries the database with the single
commit applied.
-/

namespace VoxCalls

/-- Python truthiness of a nullable string, as used by
`if not number.elevenlabs_phone_id` and `if agent.elevenlabs_agent_id`:
both `None` and the empty string are falsy. -/
def truthy : Option String → Bool
  | none => false
  | some s => s != ""

/-- Row of the `phone_numbers` table (`app/db/models/phone_number.py`),
restricted to the columns the lifecycle endpoints read or write.
Timestamps are abstracted to `Nat`. -/
structure PhoneNumber where
  id : Nat
  phone_number : String
  twilio_sid : Option String
  elevenlabs_phone_id : Option String
  tenant_id : Option Nat
  assigned_user_id : Option Nat
  assigned_agent_id : Option Nat
  status : String
  assigned_at : Option Nat
deriving Repr, DecidableEq

/-- Row of the `agents` table: the columns read by the phone-number
endpoints.  `tenant_id` is non-nullable in the model
(`app/db/models/agent.py`). -/
structure Agent where
  id : Nat
  tenant_id : Nat
  elevenlabs_agent_id : Option String
  status : String
deriving Repr, DecidableEq

/-- Row of the `tenants` table: the quota column used by the claim
endpoint. -/
structure Tenant where
  id : Nat
  max_phone_numbers : Nat
deriving Repr, DecidableEq

/-- Row of the `users` table: the columns written by
`assign_number_to_user`.  `tenant_id` is nullable but lifecycle operations
are invoked by tenant admins, so they carry a concrete tenant id. -/
structure User where
  id : Nat
  tenant_id : Option Nat
  assigned_phone_number_id : Option Nat
  assigned_agent_id : Option Nat
deriving Repr, DecidableEq

/-- The database state the lifecycle endpoints touch. -/
structure Db where
  numbers : List PhoneNumber
  agents : List Agent
  tenants : List Tenant
  users : List User
deriving Repr, DecidableEq

/-- Outcome of `ElevenLabsService.import_phone_number`.  On success the
handlers read `import_result.get("phone_number_id")`, which yields `None`
when the key is absent, hence the `Option String` payload. -/
inductive ImportOutcome where
  | fail
  | ok (phone_number_id : Option String)
deriving Repr, DecidableEq

/-- Outcome of `ElevenLabsService.assign_phone_to_agent` (also used for
unassign, and for the best-effort provider delete). -/
inductive AssignOutcome where
  | fail
  | ok
deriving Repr, DecidableEq

/-- Outcome of `TwilioService.purchase_number`. -/
inductive PurchaseOutcome where
  | fail
  | ok (sid : String) (phone_number : String)
deriving Repr, DecidableEq

/-- The error kinds the handlers raise (`HTTPException` with the indicated
status and detail). -/
inductive ApiError where
  /-- 404 "Phone number not available" (claim). -/
  | notAvailable
  /-- 403 "Phone number limit reached" (claim). -/
  | quotaExceeded
  /-- 502 "Failed to import phone number to ElevenLabs". -/
  | upstreamImportFailed
  /-- 502 "Failed to assign phone number to agent in ElevenLabs". -/
  | upstreamAssignFailed
  /-- 404 "Phone number not found" / "Agent not found" / "User not found". -/
  | notFound
  /-- 400 "Agent does not have an ElevenLabs agent ID". -/
  | agentNotSynced
  /-- 400 "Phone number already in pool" (import-existing). -/
  | alreadyExists
  /-- 400 "Cannot delete assigned phone number" (delete). -/
  | conflict
  /-- 400 "Failed to purchase number from Twilio" (purchase). -/
  | purchaseFailed
  /-- 500: an unhandled exception escaped the handler (e.g. `scalar_one`
  with no row, or the un-guarded import call in import-existing). -/
  | internalServer
deriving Repr, DecidableEq

/-- Commit of a single mutated row: SQLAlchemy flushes an `UPDATE` keyed on
the primary key. -/
def Db.updateNumber (db : Db) (n : PhoneNumber) : Db :=
  { db with numbers := db.numbers.map fun m => if m.id == n.id then n else m }

/-- Commit of a mutated `users` row. -/
def Db.updateUser (db : Db) (u : User) : Db :=
  { db with users := db.users.map fun m => if m.id == u.id then u else m }

/-- `SELECT ... WHERE id = :pid AND status = 'available'` of `claim_number`. -/
def Db.findNumberAvailable (db : Db) (pid : Nat) : Option PhoneNumber :=
  db.numbers.find? fun n => n.id == pid && n.status == "available"

/-- `SELECT ... WHERE id = :pid AND tenant_id = :tid` used by the
agent-assignment, user-assignment and release endpoints. -/
def Db.findNumberOfTenant (db : Db) (pid tenantId : Nat) : Option PhoneNumber :=
  db.numbers.find? fun n => n.id == pid && n.tenant_id == some tenantId

/-- The claim endpoint's quota count: number of `phone_numbers` rows with
`tenant_id = :tid`. -/
def Db.tenantNumberCount (db : Db) (tenantId : Nat) : Nat :=
  (db.numbers.filter fun n => n.tenant_id == some tenantId).length

/-- The lazy-import block shared by `claim_number` and
`assign_agent_to_number`: if the row has no truthy `elevenlabs_phone_id`,
call the provider import; failure raises 502, success stores
`import_result.get("phone_number_id")`. -/
def importIfNeeded (number : PhoneNumber) (ir : ImportOutcome) :
    Except ApiError PhoneNumber :=
  if truthy number.elevenlabs_phone_id then Except.ok number
  else
    match ir with
    | .fail => .error .upstreamImportFailed
    | .ok pidOpt => .ok { number with elevenlabs_phone_id := pidOpt }

/-- The in-memory computation of `claim_number`
(`phone_numbers.py:221-322`) up to but excluding the final
`await db.commit()`: it returns the mutated row that would be committed, or
the error that aborts the request.  Reads and provider calls happen in the
source order: availability lookup, tenant lookup (`scalar_one`), quota
check, lazy import, tenant/status/assigned_at mutation, optional agent
lookup (note: no `status != "deleted"` filter) and provider assign. -/
def claimCompute (db : Db) (tenantId pid : Nat) (agentId : Option Nat)
    (now : Nat) (ir : ImportOutcome) (ar : AssignOutcome) :
    Except ApiError PhoneNumber :=
  match db.findNumberAvailable pid with
  | none => .error .notAvailable
  | some number =>
    match db.tenants.find? (fun t => t.id == tenantId) with
    | none => .error .internalServer
    | some tenant =>
      if tenant.max_phone_numbers ≤ db.tenantNumberCount tenantId then
        .error .quotaExceeded
      else
        match importIfNeeded number ir with
        | .error e => .error e
        | .ok number1 =>
          let number2 := { number1 with
            tenant_id := some tenantId
            status := "assigned"
            assigned_at := some now }
          match agentId with
          | none => .ok number2
          | some aid =>
            match db.agents.find?
                (fun a => a.id == aid && a.tenant_id == tenantId) with
            | none => .ok number2
            | some agent =>
              if truthy agent.elevenlabs_agent_id then
                match ar with
                | .fail => .error .upstreamAssignFailed
                | .ok => .ok { number2 with assigned_agent_id := some agent.id }
              else .ok number2

/-- `POST /phone-numbers/claim` (`claim_number`): run the computation and,
on success, commit the single mutated row. -/
def claim_number (db : Db) (tenantId pid : Nat) (agentId : Option Nat)
    (now : Nat) (ir : ImportOutcome) (ar : AssignOutcome) :
    Except ApiError (Db × PhoneNumber) :=
  match claimCompute db tenantId pid agentId now ir ar with
  | .error e => .error e
  | .ok n => .ok (db.updateNumber n, n)

/-- `PATCH /phone-numbers/:id/agent` (`assign_agent_to_number`,
`phone_numbers.py:111-218`).  With an agent id: validate the agent
(tenant match, `status != "deleted"`, truthy `elevenlabs_agent_id`), lazily import
(fatal), provider-assign (fatal), then set `assigned_agent_id`.
Without one: best-effort provider unassign (outcome swallowed), then clear
`assigned_agent_id`. -/
def assign_agent_to_number (db : Db) (tenantId pid : Nat)
    (agentId : Option Nat) (ir : ImportOutcome) (ar : AssignOutcome) :
    Except ApiError (Db × PhoneNumber) :=
  match db.findNumberOfTenant pid tenantId with
  | none => .error .notFound
  | some number =>
    match agentId with
    | some aid =>
      match db.agents.find? (fun a =>
          a.id == aid && a.tenant_id == tenantId && a.status != "deleted") with
      | none => .error .notFound
      | some agent =>
        if truthy agent.elevenlabs_agent_id then
          match importIfNeeded number ir with
          | .error e => .error e
          | .ok number1 =>
            match ar with
            | .fail => .error .upstreamAssignFailed
            | .ok =>
              let number2 := { number1 with assigned_agent_id := some aid }
              .ok (db.updateNumber number2, number2)
        else .error .agentNotSynced
    | none =>
      let number1 := { number with assigned_agent_id := none }
      .ok (db.updateNumber number1, number1)

/-- `POST /phone-numbers/release` (`release_number`,
`phone_numbers.py:325-374`).  The provider unassign is attempted only when
the row is imported and agent-bound, and its failure is logged and
swallowed, so the outcome `ur` never affects the result: the row is
unconditionally cleared and committed. -/
def release_number (db : Db) (tenantId pid : Nat) (ur : AssignOutcome) :
    Except ApiError Db :=
  match db.findNumberOfTenant pid tenantId with
  | none => .error .notFound
  | some number =>
    match ur with
    | _ =>
      let number1 := { number with
        tenant_id := none
        assigned_user_id := none
        assigned_agent_id := none
        status := "available"
        assigned_at := none }
      .ok (db.updateNumber number1)

/-- `PATCH /phone-numbers/:id/assign` (`assign_number_to_user`,
`phone_numbers.py:377-439`).  Sets `assigned_user_id` (and mirrors onto the
user row); when an agent id is supplied and the agent merely exists in the
tenant, also sets `assigned_agent_id` — with no import, no provider call and
no eligibility check. -/
def assign_number_to_user (db : Db) (tenantId pid userId : Nat)
    (agentId : Option Nat) : Except ApiError (Db × PhoneNumber) :=
  match db.findNumberOfTenant pid tenantId with
  | none => .error .notFound
  | some number =>
    match db.users.find? (fun u =>
        u.id == userId && u.tenant_id == some tenantId) with
    | none => .error .notFound
    | some user =>
      let number1 := { number with assigned_user_id := some userId }
      let user1 := { user with assigned_phone_number_id := some pid }
      match agentId with
      | some aid =>
        match db.agents.find? (fun a =>
            a.id == aid && a.tenant_id == tenantId) with
        | some _ =>
          let number2 := { number1 with assigned_agent_id := some aid }
          let user2 := { user1 with assigned_agent_id := some aid }
          .ok ((db.updateNumber number2).updateUser user2, number2)
        | none => .ok ((db.updateNumber number1).updateUser user1, number1)
      | none => .ok ((db.updateNumber number1).updateUser user1, number1)

/-- `POST /admin/phone-numbers/purchase` (`purchase_number`,
`admin.py:312-361`).  Twilio purchase failure is fatal (400, nothing
persisted).  The voice-provider import is wrapped in
`try/except Exception: pass`: on failure the row is still created with
`elevenlabs_phone_id = None`, `status = "available"`, `tenant_id = None`. -/
def purchase_number (db : Db) (newId : Nat)
    (pr : PurchaseOutcome) (ir : ImportOutcome) :
    Except ApiError (Db × PhoneNumber) :=
  match pr with
  | .fail => .error .purchaseFailed
  | .ok sid pn =>
    let epid : Option String :=
      match ir with
      | .fail => none
      | .ok pidOpt => pidOpt
    let db_number : PhoneNumber := {
      id := newId
      phone_number := pn
      twilio_sid := some sid
      elevenlabs_phone_id := epid
      tenant_id := none
      assigned_user_id := none
      assigned_agent_id := none
      status := "available"
      assigned_at := none }
    .ok ({ db with numbers := db.numbers ++ [db_number] }, db_number)

/-- `POST /admin/phone-numbers/import` (`import_existing_number`,
`admin.py:364-404`).  Duplicate `twilio_sid` is rejected; the voice-provider import
is NOT wrapped in try/except here, so its failure escapes as an
unhandled exception (500) with nothing persisted. -/
def import_existing_number (db : Db) (newId : Nat) (pn sid : String)
    (ir : ImportOutcome) : Except ApiError (Db × PhoneNumber) :=
  if db.numbers.any (fun n => n.twilio_sid == some sid) then
    .error .alreadyExists
  else
    match ir with
    | .fail => .error .internalServer
    | .ok pidOpt =>
      let db_number : PhoneNumber := {
        id := newId
        phone_number := pn
        twilio_sid := some sid
        elevenlabs_phone_id := pidOpt
        tenant_id := none
        assigned_user_id := none
        assigned_agent_id := none
        status := "available"
        assigned_at := none }
      .ok ({ db with numbers := db.numbers ++ [db_number] }, db_number)

/-- `DELETE /admin/phone-numbers/:id` (`delete_phone_number`,
`admin.py:407-426`).  Deleting an assigned number is rejected; the
provider-side delete is best-effort (failures swallowed), so its outcome is
irrelevant to the result. -/
def delete_phone_number (db : Db) (pid : Nat) : Except ApiError Db :=
  match db.numbers.find? (fun n => n.id == pid) with
  | none => .error .notFound
  | some number =>
    if number.tenant_id.isSome then .error .conflict
    else .ok { db with numbers := db.numbers.filter (fun n => n.id != pid) }

/-- One invocation of an exposed lifecycle operation, with the outcomes of
its provider calls.  Tenant-scoped operations carry the caller's tenant id
(the lifecycle endpoints are invoked by tenant admins). -/
inductive Op where
  | purchase (newId : Nat) (pr : PurchaseOutcome) (ir : ImportOutcome)
  | importExisting (newId : Nat) (pn sid : String) (ir : ImportOutcome)
  | claim (tenantId pid : Nat) (agentId : Option Nat) (now : Nat)
      (ir : ImportOutcome) (ar : AssignOutcome)
  | assignAgent (tenantId pid : Nat) (agentId : Option Nat)
      (ir : ImportOutcome) (ar : AssignOutcome)
  | assignUser (tenantId pid userId : Nat) (agentId : Option Nat)
  | release (tenantId pid : Nat) (ur : AssignOutcome)
  | delete (pid : Nat)
deriving Repr, DecidableEq

/-- The database state persisted by one operation: an aborted request
(exception before `db.commit()`) leaves the database unchanged. -/
def applyOp (db : Db) : Op → Db
  | .purchase newId pr ir =>
    match purchase_number db newId pr ir with
    | .ok (db1, _) => db1
    | .error _ => db
  | .importExisting newId pn sid ir =>
    match import_existing_number db newId pn sid ir with
    | .ok (db1, _) => db1
    | .error _ => db
  | .claim tenantId pid agentId now ir ar =>
    match claim_number db tenantId pid agentId now ir ar with
    | .ok (db1, _) => db1
    | .error _ => db
  | .assignAgent tenantId pid agentId ir ar =>
    match assign_agent_to_number db tenantId pid agentId ir ar with
    | .ok (db1, _) => db1
    | .error _ => db
  | .assignUser tenantId pid userId agentId =>
    match assign_number_to_user db tenantId pid userId agentId with
    | .ok (db1, _) => db1
    | .error _ => db
  | .release tenantId pid ur =>
    match release_number db tenantId pid ur with
    | .ok db1 => db1
    | .error _ => db
  | .delete pid =>
    match delete_phone_number db pid with
    | .ok db1 => db1
    | .error _ => db

/-- Database states reachable through the exposed lifecycle operations,
starting from a state with no phone numbers (tenants, agents and users are
managed by out-of-scope CRUD endpoints and may be arbitrary; none of the
lifecycle operations creates or edits agent or tenant rows). -/
inductive Reachable : Db → Prop where
  | init (agents : List Agent) (tenants : List Tenant) (users : List User) :
      Reachable { numbers := [], agents := agents, tenants := tenants, users := users }
  | step (db : Db) (op : Op) : Reachable db → Reachable (applyOp db op)

/-- Well-formedness of a voice-provider import outcome: a successful import
response actually contains a `phone_number_id`. -/
def ImportOutcome.wf : ImportOutcome → Bool
  | .fail => true
  | .ok pidOpt => pidOpt.isSome

/-- An operation whose import outcomes (if any) are well-formed. -/
def Op.wf : Op → Bool
  | .purchase _ _ ir => ir.wf
  | .importExisting _ _ _ ir => ir.wf
  | .claim _ _ _ _ ir _ => ir.wf
  | .assignAgent _ _ _ ir _ => ir.wf
  | _ => true

/-- Reachability restricted to operations with well-formed import
outcomes. -/
inductive ReachableWF : Db → Prop where
  | init (agents : List Agent) (tenants : List Tenant) (users : List User) :
      ReachableWF { numbers := [], agents := agents, tenants := tenants, users := users }
  | step (db : Db) (op : Op) : ReachableWF db → op.wf = true →
      ReachableWF (applyOp db op)

/-- The pool-exclusivity invariant the code actually maintains:
pool membership and `status` are synchronized, and a pooled number carries
no assignments.  (The converse of the last implication does not hold: a
number claimed without an agent is tenant-owned with both assignment
columns null.) -/
def poolInv (n : PhoneNumber) : Prop :=
  (n.tenant_id = none ↔ n.status = "available") ∧
  (n.tenant_id = none → n.assigned_agent_id = none ∧ n.assigned_user_id = none)

instance (n : PhoneNumber) : Decidable (poolInv n) := by
  unfold poolInv
  infer_instance

/-- A tenant-owned number has been imported to the voice provider
(given well-formed import responses). -/
def importedInv (n : PhoneNumber) : Prop :=
  n.tenant_id.isSome = true → n.elevenlabs_phone_id.isSome = true

instance (n : PhoneNumber) : Decidable (importedInv n) := by
  unfold importedInv
  infer_instance

/-- Rows of the committed database after an `UPDATE`: each row is either the
written row or an untouched original. -/
theorem mem_updateNumber {db : Db} {m n : PhoneNumber}
    (h : n ∈ (db.updateNumber m).numbers) : n = m ∨ n ∈ db.numbers := by
  unfold Db.updateNumber at h
  simp only [List.mem_map] at h
  obtain ⟨x, hx, hxe⟩ := h
  by_cases hid : (x.id == m.id) = true
  · left
    rw [← hxe]
    simp [hid]
  · right
    rw [← hxe]
    simp [hid]
    exact hx

/-- `updateUser` does not touch the `numbers` table. -/
theorem updateUser_numbers (db : Db) (u : User) :
    (db.updateUser u).numbers = db.numbers := rfl

/-- What the availability lookup of `claim_number` guarantees about the row
it returns. -/
theorem findNumberAvailable_eq_some {db : Db} {pid : Nat} {n : PhoneNumber}
    (h : db.findNumberAvailable pid = some n) :
    n ∈ db.numbers ∧ n.id = pid ∧ n.status = "available" := by
  unfold Db.findNumberAvailable at h
  have hmem := List.mem_of_find?_eq_some h
  have hp := List.find?_some h
  simp only [Bool.and_eq_true, beq_iff_eq] at hp
  exact ⟨hmem, hp.1, hp.2⟩

/-- What the tenant-scoped lookup guarantees about the row it returns. -/
theorem findNumberOfTenant_eq_some {db : Db} {pid tid : Nat} {n : PhoneNumber}
    (h : db.findNumberOfTenant pid tid = some n) :
    n ∈ db.numbers ∧ n.id = pid ∧ n.tenant_id = some tid := by
  unfold Db.findNumberOfTenant at h
  have hmem := List.mem_of_find?_eq_some h
  have hp := List.find?_some h
  simp only [Bool.and_eq_true, beq_iff_eq] at hp
  exact ⟨hmem, hp.1, hp.2⟩

/-- The lazy-import block only rewrites `elevenlabs_phone_id`. -/
theorem importIfNeeded_ok_fields {number number1 : PhoneNumber}
    {ir : ImportOutcome} (h : importIfNeeded number ir = Except.ok number1) :
    number1.tenant_id = number.tenant_id ∧
    number1.status = number.status ∧
    number1.assigned_agent_id = number.assigned_agent_id ∧
    number1.assigned_user_id = number.assigned_user_id ∧
    number1.id = number.id := by
  unfold importIfNeeded at h
  split at h
  · cases h
    exact ⟨rfl, rfl, rfl, rfl, rfl⟩
  · match ir, h with
    | .ok pidOpt, h =>
      cases h
      exact ⟨rfl, rfl, rfl, rfl, rfl⟩

/-- With a well-formed import outcome, the row coming out of the
lazy-import block has a voice-provider id. -/
theorem importIfNeeded_ok_imported {number number1 : PhoneNumber}
    {ir : ImportOutcome} (hwf : ir.wf = true)
    (h : importIfNeeded number ir = Except.ok number1) :
    number1.elevenlabs_phone_id.isSome = true := by
  unfold importIfNeeded at h
  split at h
  next htr =>
    cases h
    unfold truthy at htr
    match hv : number.elevenlabs_phone_id, htr with
    | some s, _ => rfl
  next =>
    match ir, hwf, h with
    | .ok pidOpt, hwf, h =>
      cases h
      simpa [ImportOutcome.wf] using hwf

/-- Shape of the row a successful claim commits: it is tenant-owned with
status `assigned`, its `assigned_user_id` is inherited from the selected
available row, and with a well-formed import outcome it carries a
voice-provider id. -/
theorem claimCompute_ok_shape {db : Db} {tenantId pid : Nat}
    {agentId : Option Nat} {now : Nat} {ir : ImportOutcome}
    {ar : AssignOutcome} {n : PhoneNumber}
    (h : claimCompute db tenantId pid agentId now ir ar = Except.ok n) :
    n.tenant_id = some tenantId ∧ n.status = "assigned" ∧
    (∃ base, db.findNumberAvailable pid = some base ∧
      n.assigned_user_id = base.assigned_user_id) ∧
    (ir.wf = true → n.elevenlabs_phone_id.isSome = true) := by
  unfold claimCompute at h
  split at h
  · simp at h
  next number hfind =>
    split at h
    · simp at h
    next tenant hten =>
      split at h
      · simp at h
      next hq =>
        split at h
        · simp at h
        next number1 himp =>
          have hf := importIfNeeded_ok_fields himp
          have himported := fun hwf => importIfNeeded_ok_imported hwf himp
          split at h
          · cases h
            exact ⟨rfl, rfl, ⟨number, hfind, hf.2.2.2.1⟩, himported⟩
          next aid =>
            split at h
            · cases h
              exact ⟨rfl, rfl, ⟨number, hfind, hf.2.2.2.1⟩, himported⟩
            next agent hagent =>
              split at h
              · split at h
                · simp at h
                · cases h
                  exact ⟨rfl, rfl, ⟨number, hfind, hf.2.2.2.1⟩, himported⟩
              · cases h
                exact ⟨rfl, rfl, ⟨number, hfind, hf.2.2.2.1⟩, himported⟩

/-- Shape of a successful agent-assignment: the committed row keeps the
tenant, status and user of the selected tenant-owned row, and its
voice-provider id is either freshly imported (hence present, given a
well-formed outcome) or inherited unchanged. -/
theorem assign_agent_ok_shape {db db1 : Db} {tenantId pid : Nat}
    {agentId : Option Nat} {ir : ImportOutcome} {ar : AssignOutcome}
    {n : PhoneNumber}
    (h : assign_agent_to_number db tenantId pid agentId ir ar =
      Except.ok (db1, n)) :
    db1 = db.updateNumber n ∧
    ∃ base, db.findNumberOfTenant pid tenantId = some base ∧
      n.tenant_id = base.tenant_id ∧ n.status = base.status ∧
      n.assigned_user_id = base.assigned_user_id ∧
      (ir.wf = true → n.elevenlabs_phone_id.isSome = true ∨
        n.elevenlabs_phone_id = base.elevenlabs_phone_id) := by
  unfold assign_agent_to_number at h
  split at h
  · simp at h
  next number hfind =>
    split at h
    next aid =>
      split at h
      · simp at h
      next agent hagent =>
        split at h
        · split at h
          · simp at h
          next number1 himp =>
            split at h
            · simp at h
            · cases h
              have hf := importIfNeeded_ok_fields himp
              refine ⟨rfl, number, hfind, hf.1, hf.2.1, hf.2.2.2.1, ?_⟩
              intro hwf
              have himported := importIfNeeded_ok_imported hwf himp
              exact Or.inl himported
        · simp at h
    · cases h
      exact ⟨rfl, number, hfind, rfl, rfl, rfl, fun _ => Or.inr rfl⟩

/-- Shape of a successful user-assignment: the committed row keeps the
tenant, status and voice-provider id of the selected tenant-owned row. -/
theorem assign_user_ok_shape {db db1 : Db} {tenantId pid userId : Nat}
    {agentId : Option Nat} {n : PhoneNumber}
    (h : assign_number_to_user db tenantId pid userId agentId =
      Except.ok (db1, n)) :
    db1.numbers = (db.updateNumber n).numbers ∧
    ∃ base, db.findNumberOfTenant pid tenantId = some base ∧
      n.tenant_id = base.tenant_id ∧ n.status = base.status ∧
      n.elevenlabs_phone_id = base.elevenlabs_phone_id := by
  unfold assign_number_to_user at h
  split at h
  · simp at h
  next number hfind =>
    split at h
    · simp at h
    next user huser =>
      split at h
      next aid =>
        split at h
        next agent hagent =>
          cases h
          exact ⟨rfl, number, hfind, rfl, rfl, rfl⟩
        · cases h
          exact ⟨rfl, number, hfind, rfl, rfl, rfl⟩
      · cases h
        exact ⟨rfl, number, hfind, rfl, rfl, rfl⟩

/-- Shape of a successful release: the committed row is fully reset to pool
defaults. -/
theorem release_ok_shape {db db1 : Db} {tenantId pid : Nat}
    {ur : AssignOutcome}
    (h : release_number db tenantId pid ur = Except.ok db1) :
    ∃ base, db.findNumberOfTenant pid tenantId = some base ∧
      db1 = db.updateNumber { base with
        tenant_id := none
        assigned_user_id := none
        assigned_agent_id := none
        status := "available"
        assigned_at := none } := by
  unfold release_number at h
  split at h
  · simp at h
  next number hfind =>
    cases h
    exact ⟨number, hfind, rfl⟩

/-- A successful claim commits exactly the row computed before the commit. -/
theorem claim_number_ok {db db1 : Db} {tenantId pid : Nat}
    {agentId : Option Nat} {now : Nat} {ir : ImportOutcome}
    {ar : AssignOutcome} {n : PhoneNumber}
    (h : claim_number db tenantId pid agentId now ir ar =
      Except.ok (db1, n)) :
    db1 = db.updateNumber n ∧
    claimCompute db tenantId pid agentId now ir ar = Except.ok n := by
  unfold claim_number at h
  split at h
  · simp at h
  next m heq =>
    cases h
    exact ⟨rfl, heq⟩

/-- Shape of a successful purchase: a fresh pool row is appended. -/
theorem purchase_ok_shape {db db1 : Db} {newId : Nat}
    {pr : PurchaseOutcome} {ir : ImportOutcome} {n : PhoneNumber}
    (h : purchase_number db newId pr ir = Except.ok (db1, n)) :
    db1.numbers = db.numbers ++ [n] ∧ n.tenant_id = none ∧
    n.status = "available" ∧ n.assigned_agent_id = none ∧
    n.assigned_user_id = none := by
  unfold purchase_number at h
  split at h
  · simp at h
  · cases h
    exact ⟨rfl, rfl, rfl, rfl, rfl⟩

/-- Shape of a successful import of an existing number: a fresh pool row is
appended. -/
theorem import_existing_ok_shape {db db1 : Db} {newId : Nat}
    {pn sid : String} {ir : ImportOutcome} {n : PhoneNumber}
    (h : import_existing_number db newId pn sid ir = Except.ok (db1, n)) :
    db1.numbers = db.numbers ++ [n] ∧ n.tenant_id = none ∧
    n.status = "available" ∧ n.assigned_agent_id = none ∧
    n.assigned_user_id = none := by
  unfold import_existing_number at h
  split at h
  · simp at h
  · split at h
    · simp at h
    · cases h
      exact ⟨rfl, rfl, rfl, rfl, rfl⟩

/-- Shape of a successful hard delete: the surviving rows are a subset of
the old ones. -/
theorem delete_ok_shape {db db1 : Db} {pid : Nat}
    (h : delete_phone_number db pid = Except.ok db1) :
    ∀ n ∈ db1.numbers, n ∈ db.numbers := by
  unfold delete_phone_number at h
  split at h
  · simp at h
  · split at h
    · simp at h
    · cases h
      intro n hn
      exact List.mem_of_mem_filter hn

/-- The pool-exclusivity invariant `poolInv` is preserved by every
lifecycle operation, whatever the provider outcomes. -/
theorem poolInv_preserved {db : Db} (op : Op)
    (h : ∀ n ∈ db.numbers, poolInv n) :
    ∀ n ∈ (applyOp db op).numbers, poolInv n := by
  intro n hn
  cases op with
  | purchase newId pr ir =>
    simp only [applyOp] at hn
    split at hn
    next db1 m heq =>
      obtain ⟨hnums, ht, hs, ha, hu⟩ := purchase_ok_shape heq
      rw [hnums] at hn
      rcases List.mem_append.mp hn with hold | hnew
      · exact h n hold
      · rw [List.mem_singleton.mp hnew]
        exact ⟨by simp [ht, hs], fun _ => ⟨ha, hu⟩⟩
    next => exact h n hn
  | importExisting newId pn sid ir =>
    simp only [applyOp] at hn
    split at hn
    next db1 m heq =>
      obtain ⟨hnums, ht, hs, ha, hu⟩ := import_existing_ok_shape heq
      rw [hnums] at hn
      rcases List.mem_append.mp hn with hold | hnew
      · exact h n hold
      · rw [List.mem_singleton.mp hnew]
        exact ⟨by simp [ht, hs], fun _ => ⟨ha, hu⟩⟩
    next => exact h n hn
  | claim tenantId pid agentId now ir ar =>
    simp only [applyOp] at hn
    split at hn
    next db1 m heq =>
      obtain ⟨hdb1, hcomp⟩ := claim_number_ok heq
      obtain ⟨ht, hs, _, _⟩ := claimCompute_ok_shape hcomp
      rw [hdb1] at hn
      rcases mem_updateNumber hn with hnew | hold
      · subst hnew
        refine ⟨by simp [ht, hs], fun hnone => ?_⟩
        rw [ht] at hnone
        cases hnone
      · exact h n hold
    next => exact h n hn
  | assignAgent tenantId pid agentId ir ar =>
    simp only [applyOp] at hn
    split at hn
    next db1 m heq =>
      obtain ⟨hdb1, base, hfind, ht, hs, hu, _⟩ := assign_agent_ok_shape heq
      obtain ⟨hbmem, _, hbt⟩ := findNumberOfTenant_eq_some hfind
      rw [hdb1] at hn
      rcases mem_updateNumber hn with hnew | hold
      · subst hnew
        obtain ⟨hb1, hb2⟩ := h base hbmem
        constructor
        · rw [ht, hs, hbt]
          simp only [hbt] at hb1
          constructor
          · intro hc
            cases hc
          · intro hav
            exact absurd (hb1.mpr hav) (by simp)
        · intro hnone
          rw [ht, hbt] at hnone
          cases hnone
      · exact h n hold
    next => exact h n hn
  | assignUser tenantId pid userId agentId =>
    simp only [applyOp] at hn
    split at hn
    next db1 m heq =>
      obtain ⟨hnums, base, hfind, ht, hs, _⟩ := assign_user_ok_shape heq
      obtain ⟨hbmem, _, hbt⟩ := findNumberOfTenant_eq_some hfind
      rw [hnums] at hn
      rcases mem_updateNumber hn with hnew | hold
      · subst hnew
        obtain ⟨hb1, hb2⟩ := h base hbmem
        constructor
        · rw [ht, hs, hbt]
          simp only [hbt] at hb1
          constructor
          · intro hc
            cases hc
          · intro hav
            exact absurd (hb1.mpr hav) (by simp)
        · intro hnone
          rw [ht, hbt] at hnone
          cases hnone
      · exact h n hold
    next => exact h n hn
  | release tenantId pid ur =>
    simp only [applyOp] at hn
    split at hn
    next db1 heq =>
      obtain ⟨base, hfind, hdb1⟩ := release_ok_shape heq
      rw [hdb1] at hn
      rcases mem_updateNumber hn with hnew | hold
      · subst hnew
        exact ⟨by simp, fun _ => ⟨rfl, rfl⟩⟩
      · exact h n hold
    next => exact h n hn
  | delete pid =>
    simp only [applyOp] at hn
    split at hn
    next db1 heq => exact h n (delete_ok_shape heq n hn)
    next => exact h n hn

/-- The tenant-owned-implies-imported invariant `importedInv` is preserved
by every lifecycle operation whose import outcomes are well-formed. -/
theorem importedInv_preserved {db : Db} (op : Op) (hwf : op.wf = true)
    (h : ∀ n ∈ db.numbers, importedInv n) :
    ∀ n ∈ (applyOp db op).numbers, importedInv n := by
  intro n hn
  cases op with
  | purchase newId pr ir =>
    simp only [applyOp] at hn
    split at hn
    next db1 m heq =>
      obtain ⟨hnums, ht, _, _, _⟩ := purchase_ok_shape heq
      rw [hnums] at hn
      rcases List.mem_append.mp hn with hold | hnew
      · exact h n hold
      · rw [List.mem_singleton.mp hnew]
        intro hts
        rw [ht] at hts
        cases hts
    next => exact h n hn
  | importExisting newId pn sid ir =>
    simp only [applyOp] at hn
    split at hn
    next db1 m heq =>
      obtain ⟨hnums, ht, _, _, _⟩ := import_existing_ok_shape heq
      rw [hnums] at hn
      rcases List.mem_append.mp hn with hold | hnew
      · exact h n hold
      · rw [List.mem_singleton.mp hnew]
        intro hts
        rw [ht] at hts
        cases hts
    next => exact h n hn
  | claim tenantId pid agentId now ir ar =>
    simp only [applyOp] at hn
    split at hn
    next db1 m heq =>
      obtain ⟨hdb1, hcomp⟩ := claim_number_ok heq
      obtain ⟨ht, hs, _, himp⟩ := claimCompute_ok_shape hcomp
      rw [hdb1] at hn
      rcases mem_updateNumber hn with hnew | hold
      · subst hnew
        intro _
        exact himp (by simpa [Op.wf] using hwf)
      · exact h n hold
    next => exact h n hn
  | assignAgent tenantId pid agentId ir ar =>
    simp only [applyOp] at hn
    split at hn
    next db1 m heq =>
      obtain ⟨hdb1, base, hfind, ht, hs, hu, hie⟩ := assign_agent_ok_shape heq
      obtain ⟨hbmem, _, hbt⟩ := findNumberOfTenant_eq_some hfind
      rw [hdb1] at hn
      rcases mem_updateNumber hn with hnew | hold
      · subst hnew
        intro hts
        rcases hie (by simpa [Op.wf] using hwf) with hsome | hsame
        · exact hsome
        · rw [hsame]
          exact h base hbmem (by rw [hbt]; rfl)
      · exact h n hold
    next => exact h n hn
  | assignUser tenantId pid userId agentId =>
    simp only [applyOp] at hn
    split at hn
    next db1 m heq =>
      obtain ⟨hnums, base, hfind, ht, hs, hel⟩ := assign_user_ok_shape heq
      obtain ⟨hbmem, _, hbt⟩ := findNumberOfTenant_eq_some hfind
      rw [hnums] at hn
      rcases mem_updateNumber hn with hnew | hold
      · subst hnew
        intro hts
        rw [hel]
        exact h base hbmem (by rw [hbt]; rfl)
      · exact h n hold
    next => exact h n hn
  | release tenantId pid ur =>
    simp only [applyOp] at hn
    split at hn
    next db1 heq =>
      obtain ⟨base, hfind, hdb1⟩ := release_ok_shape heq
      rw [hdb1] at hn
      rcases mem_updateNumber hn with hnew | hold
      · subst hnew
        intro hts
        simp at hts
      · exact h n hold
    next => exact h n hn
  | delete pid =>
    simp only [applyOp] at hn
    split at hn
    next db1 heq => exact h n (delete_ok_shape heq n hn)
    next => exact h n hn

/-- Every reachable database satisfies the pool-exclusivity invariant. -/
theorem reachable_poolInv {db : Db} (h : Reachable db) :
    ∀ n ∈ db.numbers, poolInv n := by
  induction h with
  | init agents tenants users =>
    intro n hn
    cases hn
  | step db op hdb ih => exact poolInv_preserved op ih

/-- Reachability with well-formed imports is a restriction of plain
reachability. -/
theorem reachableWF_reachable {db : Db} (h : ReachableWF db) :
    Reachable db := by
  induction h with
  | init agents tenants users => exact Reachable.init agents tenants users
  | step db op hdb hwf ih => exact Reachable.step db op ih

/-- Every database reachable via well-formed import outcomes satisfies the
tenant-owned-implies-imported invariant. -/
theorem reachableWF_importedInv {db : Db} (h : ReachableWF db) :
    ∀ n ∈ db.numbers, importedInv n := by
  induction h with
  | init agents tenants users =>
    intro n hn
    cases hn
  | step db op hdb hwf ih => exact importedInv_preserved op hwf ih

/-- Arguments of one in-flight `claim_number` request (including its
provider-call outcomes). -/
structure ClaimCall where
  tenantId : Nat
  pid : Nat
  agentId : Option Nat
  now : Nat
  ir : ImportOutcome
  ar : AssignOutcome
deriving Repr, DecidableEq

/-- Progress of one in-flight claim request.  The handler is a coroutine:
every `await` (each `db.execute` and each provider HTTP call) is a
suspension point at which other requests may run.  All of the handler's
database reads precede its single write (`db.commit()`), so the request is
faithfully represented by two atomic steps against the shared database:
`start` → compute from the current state (reads, checks, provider calls,
in-memory mutation), then `ready` → commit the pending row (an `UPDATE`
keyed on the primary key, with no `WHERE status` guard and no row lock). -/
inductive ClaimPhase where
  | start
  | ready (pending : PhoneNumber)
  | finished (result : Except ApiError PhoneNumber)
deriving Repr

/-- One atomic step of an in-flight claim request against the shared
database. -/
def claimStep (db : Db) (c : ClaimCall) : ClaimPhase → Db × ClaimPhase
  | .start =>
    match claimCompute db c.tenantId c.pid c.agentId c.now c.ir c.ar with
    | .error e => (db, .finished (.error e))
    | .ok n => (db, .ready n)
  | .ready n => (db.updateNumber n, .finished (.ok n))
  | .finished r => (db, .finished r)

/-- Run two concurrent claim requests under an explicit interleaving:
`true` schedules a step of the first request, `false` one of the second.
Returns the final database and both requests' phases. -/
def runSchedule (db : Db) (a b : ClaimCall) (pha phb : ClaimPhase) :
    List Bool → Db × ClaimPhase × ClaimPhase
  | [] => (db, pha, phb)
  | true :: rest =>
    let s := claimStep db a pha
    runSchedule s.1 a b s.2 phb rest
  | false :: rest =>
    let s := claimStep db b phb
    runSchedule s.1 a b pha s.2 rest

/-- A request that ran to completion and returned 200. -/
def ClaimPhase.succeeded : ClaimPhase → Bool
  | .finished (.ok _) => true
  | _ => false

/-- Sanity: a claim request that runs its two steps with no interleaving
agrees with the sequential endpoint semantics `claim_number`. -/
theorem runSchedule_solo (db : Db) (a b : ClaimCall) (phb : ClaimPhase) :
    runSchedule db a b .start phb [true, true] =
      match claim_number db a.tenantId a.pid a.agentId a.now a.ir a.ar with
      | .ok (db1, n) => (db1, .finished (.ok n), phb)
      | .error e => (db, .finished (.error e), phb) := by
  unfold runSchedule claimStep claim_number
  cases hc : claimCompute db a.tenantId a.pid a.agentId a.now a.ir a.ar with
  | error e => simp [runSchedule, claimStep]
  | ok n => simp [runSchedule, claimStep]

/-- Claim C4: for every Claim on an available number whose voice-provider
number id is null (not truthy), if the provider import call fails, the
operation aborts with `UpstreamImportFailed` and no mutation is persisted —
afterwards the number's `tenant_id` is still null and its `status` is still
`available`.  (The quota-passing hypotheses put the request on the path
that reaches the import call.) -/
theorem claim_import_failure_no_mutation
    (db : Db) (tenantId pid : Nat) (agentId : Option Nat) (now : Nat)
    (ar : AssignOutcome) (number : PhoneNumber) (tenant : Tenant)
    (hn : db.findNumberAvailable pid = some number)
    (hnull : number.tenant_id = none)
    (hun : truthy number.elevenlabs_phone_id = false)
    (ht : db.tenants.find? (fun t => t.id == tenantId) = some tenant)
    (hq : db.tenantNumberCount tenantId < tenant.max_phone_numbers) :
    claim_number db tenantId pid agentId now ImportOutcome.fail ar =
      Except.error ApiError.upstreamImportFailed ∧
    applyOp db (Op.claim tenantId pid agentId now ImportOutcome.fail ar) = db ∧
    number.tenant_id = none ∧ number.status = "available" := by
  have hstat := (findNumberAvailable_eq_some hn).2.2
  have hq1 : ¬ tenant.max_phone_numbers ≤ db.tenantNumberCount tenantId :=
    Nat.not_le.mpr hq
  have hclaim : claim_number db tenantId pid agentId now ImportOutcome.fail ar =
      Except.error ApiError.upstreamImportFailed := by
    unfold claim_number claimCompute importIfNeeded
    simp [hn, ht, hq1, hun]
  refine ⟨hclaim, ?_, hnull, hstat⟩
  simp only [applyOp, hclaim]

/-- Witness for C4 at a concrete input. -/
theorem claim_import_failure_no_mutation_witness :
    claim_number
      { numbers := [⟨10, "+15550000001", some "sid", none, none, none, none,
          "available", none⟩],
        agents := [], tenants := [⟨1, 1⟩], users := [] }
      1 10 none 5 ImportOutcome.fail AssignOutcome.ok =
      Except.error ApiError.upstreamImportFailed ∧
    applyOp
      { numbers := [⟨10, "+15550000001", some "sid", none, none, none, none,
          "available", none⟩],
        agents := [], tenants := [⟨1, 1⟩], users := [] }
      (Op.claim 1 10 none 5 ImportOutcome.fail AssignOutcome.ok) =
      { numbers := [⟨10, "+15550000001", some "sid", none, none, none, none,
          "available", none⟩],
        agents := [], tenants := [⟨1, 1⟩], users := [] } ∧
    (⟨10, "+15550000001", some "sid", none, none, none, none,
      "available", none⟩ : PhoneNumber).tenant_id = none ∧
    (⟨10, "+15550000001", some "sid", none, none, none, none,
      "available", none⟩ : PhoneNumber).status = "available" :=
  claim_import_failure_no_mutation _ 1 10 none 5 AssignOutcome.ok
    ⟨10, "+15550000001", some "sid", none, none, none, none,
      "available", none⟩ ⟨1, 1⟩
    (by decide) (by decide) (by decide) (by decide) (by decide)

/-- Claim C7: a Claim by a tenant whose owned-number count has reached
`max_phone_numbers` returns `QuotaExceeded` whatever the provider outcomes
(no provider call can influence the result, since the check precedes both
provider calls) and persists no mutation; conversely a Claim can only
return 200 when the count is strictly below the quota. -/
theorem claim_quota_enforced
    (db : Db) (tenantId pid : Nat) (agentId : Option Nat) (now : Nat)
    (number : PhoneNumber) (tenant : Tenant)
    (hn : db.findNumberAvailable pid = some number)
    (ht : db.tenants.find? (fun t => t.id == tenantId) = some tenant) :
    (tenant.max_phone_numbers ≤ db.tenantNumberCount tenantId →
      ∀ ir ar, claim_number db tenantId pid agentId now ir ar =
          Except.error ApiError.quotaExceeded ∧
        applyOp db (Op.claim tenantId pid agentId now ir ar) = db) ∧
    (∀ ir ar res, claim_number db tenantId pid agentId now ir ar =
        Except.ok res →
      db.tenantNumberCount tenantId < tenant.max_phone_numbers) := by
  constructor
  · intro hq ir ar
    have hclaim : claim_number db tenantId pid agentId now ir ar =
        Except.error ApiError.quotaExceeded := by
      unfold claim_number claimCompute
      simp [hn, ht, hq]
    exact ⟨hclaim, by simp only [applyOp, hclaim]⟩
  · intro ir ar res hok
    by_contra hge
    have hq := Nat.le_of_not_lt hge
    have : claim_number db tenantId pid agentId now ir ar =
        Except.error ApiError.quotaExceeded := by
      unfold claim_number claimCompute
      simp [hn, ht, hq]
    rw [this] at hok
    cases hok

/-- Witness for C7 at a concrete input: the tenant owns 1 of max 1
numbers, so claiming a second one is rejected. -/
theorem claim_quota_enforced_witness :
    ((⟨1, 1⟩ : Tenant).max_phone_numbers ≤
      Db.tenantNumberCount
        { numbers := [⟨10, "+15550000001", some "sid", some "ep", none, none,
            none, "available", none⟩,
          ⟨11, "+15550000002", some "sid2", some "ep2", some 1, none, none,
            "assigned", some 3⟩],
          agents := [], tenants := [⟨1, 1⟩], users := [] } 1 →
      ∀ ir ar, claim_number
        { numbers := [⟨10, "+15550000001", some "sid", some "ep", none, none,
            none, "available", none⟩,
          ⟨11, "+15550000002", some "sid2", some "ep2", some 1, none, none,
            "assigned", some 3⟩],
          agents := [], tenants := [⟨1, 1⟩], users := [] } 1 10 none 5 ir ar =
          Except.error ApiError.quotaExceeded ∧
        applyOp
        { numbers := [⟨10, "+15550000001", some "sid", some "ep", none, none,
            none, "available", none⟩,
          ⟨11, "+15550000002", some "sid2", some "ep2", some 1, none, none,
            "assigned", some 3⟩],
          agents := [], tenants := [⟨1, 1⟩], users := [] }
          (Op.claim 1 10 none 5 ir ar) =
        { numbers := [⟨10, "+15550000001", some "sid", some "ep", none, none,
            none, "available", none⟩,
          ⟨11, "+15550000002", some "sid2", some "ep2", some 1, none, none,
            "assigned", some 3⟩],
          agents := [], tenants := [⟨1, 1⟩], users := [] }) ∧
    (∀ ir ar res, claim_number
        { numbers := [⟨10, "+15550000001", some "sid", some "ep", none, none,
            none, "available", none⟩,
          ⟨11, "+15550000002", some "sid2", some "ep2", some 1, none, none,
            "assigned", some 3⟩],
          agents := [], tenants := [⟨1, 1⟩], users := [] } 1 10 none 5 ir ar =
        Except.ok res →
      Db.tenantNumberCount
        { numbers := [⟨10, "+15550000001", some "sid", some "ep", none, none,
            none, "available", none⟩,
          ⟨11, "+15550000002", some "sid2", some "ep2", some 1, none, none,
            "assigned", some 3⟩],
          agents := [], tenants := [⟨1, 1⟩], users := [] } 1 <
        (⟨1, 1⟩ : Tenant).max_phone_numbers) :=
  claim_quota_enforced _ 1 10 none 5
    ⟨10, "+15550000001", some "sid", some "ep", none, none, none,
      "available", none⟩ ⟨1, 1⟩ (by decide) (by decide)

/-- Claim C5: in AssignAgent with a non-null agent id, when the agent
validation passes (tenant-scoped, not deleted, synced) and any lazy import
succeeds (or is unnecessary) but the provider assign call fails, the
operation returns `UpstreamAssignFailed` and persists nothing — in
particular the number's `assigned_agent_id` is not set to the requested
agent.  `assigned_agent_id` is only persisted on provider success. -/
theorem assign_agent_failure_leaves_binding_unchanged
    (db : Db) (tenantId pid aid : Nat) (ir : ImportOutcome)
    (number : PhoneNumber) (agent : Agent)
    (hn : db.findNumberOfTenant pid tenantId = some number)
    (ha : db.agents.find? (fun a =>
        a.id == aid && a.tenant_id == tenantId && a.status != "deleted") =
      some agent)
    (he : truthy agent.elevenlabs_agent_id = true)
    (hi : truthy number.elevenlabs_phone_id = true ∨
      ∃ p, ir = ImportOutcome.ok p) :
    assign_agent_to_number db tenantId pid (some aid) ir AssignOutcome.fail =
      Except.error ApiError.upstreamAssignFailed ∧
    applyOp db (Op.assignAgent tenantId pid (some aid) ir
      AssignOutcome.fail) = db := by
  have hassign : assign_agent_to_number db tenantId pid (some aid) ir
      AssignOutcome.fail = Except.error ApiError.upstreamAssignFailed := by
    unfold assign_agent_to_number importIfNeeded
    rcases hi with htr | ⟨p, hir⟩
    · simp [hn, ha, he, htr]
    · subst hir
      simp only [hn, ha, he]
      by_cases htr : truthy number.elevenlabs_phone_id = true <;>
        simp [htr, he]
  exact ⟨hassign, by simp only [applyOp, hassign]⟩

/-- Witness for C5 at a concrete input. -/
theorem assign_agent_failure_leaves_binding_unchanged_witness :
    assign_agent_to_number
      { numbers := [⟨10, "+15550000001", some "sid", some "ep", some 1, none,
          none, "assigned", some 3⟩],
        agents := [⟨20, 1, some "ea", "active"⟩],
        tenants := [⟨1, 1⟩], users := [] }
      1 10 (some 20) ImportOutcome.fail AssignOutcome.fail =
      Except.error ApiError.upstreamAssignFailed ∧
    applyOp
      { numbers := [⟨10, "+15550000001", some "sid", some "ep", some 1, none,
          none, "assigned", some 3⟩],
        agents := [⟨20, 1, some "ea", "active"⟩],
        tenants := [⟨1, 1⟩], users := [] }
      (Op.assignAgent 1 10 (some 20) ImportOutcome.fail AssignOutcome.fail) =
      { numbers := [⟨10, "+15550000001", some "sid", some "ep", some 1, none,
          none, "assigned", some 3⟩],
        agents := [⟨20, 1, some "ea", "active"⟩],
        tenants := [⟨1, 1⟩], users := [] } :=
  assign_agent_failure_leaves_binding_unchanged _ 1 10 20 ImportOutcome.fail
    ⟨10, "+15550000001", some "sid", some "ep", some 1, none, none,
      "assigned", some 3⟩ ⟨20, 1, some "ea", "active"⟩
    (by decide) (by decide) (by decide) (Or.inl (by decide))

/-- Claim C8: Release on a number owned by the calling tenant succeeds for
every outcome of the best-effort provider unassign call (including
failure), unconditionally clears `tenant_id`, `assigned_user_id` and
`assigned_agent_id`, sets `status` to `available` and `assigned_at` to
null, and never propagates a provider error. -/
theorem release_always_succeeds
    (db : Db) (tenantId pid : Nat) (number : PhoneNumber)
    (hn : db.findNumberOfTenant pid tenantId = some number) :
    ∀ ur, release_number db tenantId pid ur =
      Except.ok (db.updateNumber { number with
        tenant_id := none
        assigned_user_id := none
        assigned_agent_id := none
        status := "available"
        assigned_at := none }) := by
  intro ur
  unfold release_number
  simp [hn]

/-- Witness for C8 at a concrete input: the provider unassign fails, yet
release returns ok with the row reset to pool defaults. -/
theorem release_always_succeeds_witness :
    release_number
      { numbers := [⟨10, "+15550000001", some "sid", some "ep", some 1,
          some 30, some 20, "assigned", some 3⟩],
        agents := [⟨20, 1, some "ea", "active"⟩],
        tenants := [⟨1, 1⟩], users := [] }
      1 10 AssignOutcome.fail =
      Except.ok (Db.updateNumber
        { numbers := [⟨10, "+15550000001", some "sid", some "ep", some 1,
            some 30, some 20, "assigned", some 3⟩],
          agents := [⟨20, 1, some "ea", "active"⟩],
          tenants := [⟨1, 1⟩], users := [] }
        { (⟨10, "+15550000001", some "sid", some "ep", some 1,
            some 30, some 20, "assigned", some 3⟩ : PhoneNumber) with
          tenant_id := none
          assigned_user_id := none
          assigned_agent_id := none
          status := "available"
          assigned_at := none }) :=
  release_always_succeeds _ 1 10
    ⟨10, "+15550000001", some "sid", some "ep", some 1, some 30, some 20,
      "assigned", some 3⟩ (by decide) AssignOutcome.fail

/-- Claim C9: acquire-by-purchase aborts with nothing persisted when the
telephony purchase fails; when the purchase succeeds but the voice-provider import
fails, the row is still created and persisted with
`status = "available"` and a null voice-provider id. -/
theorem purchase_failure_semantics
    (db : Db) (newId : Nat) (sid pn : String) (ir : ImportOutcome) :
    (purchase_number db newId PurchaseOutcome.fail ir =
        Except.error ApiError.purchaseFailed ∧
      applyOp db (Op.purchase newId PurchaseOutcome.fail ir) = db) ∧
    (∃ n, purchase_number db newId (PurchaseOutcome.ok sid pn)
        ImportOutcome.fail =
        Except.ok ({ db with numbers := db.numbers ++ [n] }, n) ∧
      n.status = "available" ∧ n.elevenlabs_phone_id = none ∧
      n.tenant_id = none) := by
  refine ⟨⟨rfl, ?_⟩, ?_⟩
  · simp [applyOp, purchase_number]
  · exact ⟨_, rfl, rfl, rfl, rfl⟩

/-- Claim C1 (amended): under exactly the conditions the claim describes
(number available, import already done or succeeding, agent found for the
tenant with a synced provider id, provider assign failing), `claim_number`
does return `UpstreamAssignFailed` — but the claim of steps 1-2 does NOT
remain committed: the `HTTPException` is raised before the handler's single
`db.commit()`, so the whole operation is rolled back and the number is left
untouched (still `tenant_id = null`, `status = "available"`). -/
theorem claim_assign_failure_rolls_back_claim
    (db : Db) (tenantId pid aid : Nat) (now : Nat) (ir : ImportOutcome)
    (number : PhoneNumber) (tenant : Tenant) (agent : Agent)
    (hn : db.findNumberAvailable pid = some number)
    (ht : db.tenants.find? (fun t => t.id == tenantId) = some tenant)
    (hq : db.tenantNumberCount tenantId < tenant.max_phone_numbers)
    (hi : truthy number.elevenlabs_phone_id = true ∨
      ∃ p, ir = ImportOutcome.ok p)
    (ha : db.agents.find? (fun a => a.id == aid && a.tenant_id == tenantId) =
      some agent)
    (he : truthy agent.elevenlabs_agent_id = true) :
    claim_number db tenantId pid (some aid) now ir AssignOutcome.fail =
      Except.error ApiError.upstreamAssignFailed ∧
    applyOp db (Op.claim tenantId pid (some aid) now ir
      AssignOutcome.fail) = db := by
  have hq1 : ¬ tenant.max_phone_numbers ≤ db.tenantNumberCount tenantId :=
    Nat.not_le.mpr hq
  have hclaim : claim_number db tenantId pid (some aid) now ir
      AssignOutcome.fail = Except.error ApiError.upstreamAssignFailed := by
    unfold claim_number claimCompute importIfNeeded
    rcases hi with htr | ⟨p, hir⟩
    · simp [hn, ht, hq1, htr, ha, he]
    · subst hir
      simp only [hn, ht]
      by_cases htr : truthy number.elevenlabs_phone_id = true <;>
        simp [hq1, htr, ha, he]
  exact ⟨hclaim, by simp only [applyOp, hclaim]⟩

/-- Witness for the amended C1 at a concrete input. -/
theorem claim_assign_failure_rolls_back_claim_witness :
    claim_number
      { numbers := [⟨10, "+15550000001", some "sid", some "ep", none, none,
          none, "available", none⟩],
        agents := [⟨20, 1, some "ea", "active"⟩],
        tenants := [⟨1, 1⟩], users := [] }
      1 10 (some 20) 5 ImportOutcome.fail AssignOutcome.fail =
      Except.error ApiError.upstreamAssignFailed ∧
    applyOp
      { numbers := [⟨10, "+15550000001", some "sid", some "ep", none, none,
          none, "available", none⟩],
        agents := [⟨20, 1, some "ea", "active"⟩],
        tenants := [⟨1, 1⟩], users := [] }
      (Op.claim 1 10 (some 20) 5 ImportOutcome.fail AssignOutcome.fail) =
      { numbers := [⟨10, "+15550000001", some "sid", some "ep", none, none,
          none, "available", none⟩],
        agents := [⟨20, 1, some "ea", "active"⟩],
        tenants := [⟨1, 1⟩], users := [] } :=
  claim_assign_failure_rolls_back_claim _ 1 10 20 5 ImportOutcome.fail
    ⟨10, "+15550000001", some "sid", some "ep", none, none, none,
      "available", none⟩ ⟨1, 1⟩ ⟨20, 1, some "ea", "active"⟩
    (by decide) (by decide) (by decide) (Or.inl (by decide))
    (by decide) (by decide)

/-- Counterexample to C1 as stated: at a concrete input satisfying all of
the claim's hypotheses (available number already imported, eligible agent,
provider assign fails), the operation does return `UpstreamAssignFailed`,
but afterwards the number's `tenant_id` is still null and its `status` is
still `"available"` — the claim of steps 1-2 did NOT remain committed, so
the asserted post-state (`tenant_id = tenantId`, `status = assigned`,
`assigned_at` set) is false. -/
theorem claim_assign_failure_commits_nothing_cex :
    claim_number
      { numbers := [⟨10, "+15550000001", some "sid", some "ep", none, none,
          none, "available", none⟩],
        agents := [⟨20, 1, some "ea", "active"⟩],
        tenants := [⟨1, 1⟩], users := [] }
      1 10 (some 20) 5 ImportOutcome.fail AssignOutcome.fail =
      Except.error ApiError.upstreamAssignFailed ∧
    ((applyOp
      { numbers := [⟨10, "+15550000001", some "sid", some "ep", none, none,
          none, "available", none⟩],
        agents := [⟨20, 1, some "ea", "active"⟩],
        tenants := [⟨1, 1⟩], users := [] }
      (Op.claim 1 10 (some 20) 5 ImportOutcome.fail
        AssignOutcome.fail)).numbers.find?
      (fun n => n.id == 10)).map (fun n => (n.tenant_id, n.status)) =
      some (none, "available") := by
  constructor
  · rfl
  · rfl

/-- Claim C10, failing input: `claim_number`'s agent lookup filters only on
agent id and tenant — unlike `assign_agent_to_number` it has no
`status != "deleted"` condition — so claiming with the id of a
soft-deleted agent that still has its provider id (agent deletion in
`agents.py` keeps the row and the provider id) binds that deleted agent:
the committed row has `assigned_agent_id = agent.id`, contradicting the
claim that a deleted agent is never bound and is skipped. -/
theorem claim_binds_deleted_agent :
    (claim_number
      { numbers := [⟨10, "+61255501234", some "sid", some "ep", none, none,
          none, "available", none⟩],
        agents := [⟨20, 1, some "ea", "deleted"⟩],
        tenants := [⟨1, 5⟩], users := [] }
      1 10 (some 20) 7 ImportOutcome.fail AssignOutcome.ok).map
      (fun r => (r.2.assigned_agent_id, r.2.tenant_id, r.2.status)) =
      Except.ok (some 20, some 1, "assigned") := by
  rfl

/-- Claim C3, failing input: the handler performs a plain `SELECT` with no
row lock and commits with an unconditional `UPDATE` keyed on the primary
key (no `WHERE status = 'available'` guard), so when two concurrent claims
for tenants 1 and 2 both read the number while it is still available
(schedule: A reads, B reads, A commits, B commits — every `await` in the
handler is a suspension point), BOTH requests return 200 and the later
commit silently overwrites the earlier one: the number ends up assigned to
tenant 2 and no caller receives `NotAvailable`.  Under the same
sequential schedule (A runs to completion first) the loser does get
`NotAvailable`, confirming the failure is the interleaving. -/
theorem concurrent_claims_both_succeed :
    ((runSchedule
      { numbers := [⟨10, "+61255501234", some "sid", some "ep", none, none,
          none, "available", none⟩],
        agents := [], tenants := [⟨1, 1⟩, ⟨2, 1⟩], users := [] }
      ⟨1, 10, none, 5, ImportOutcome.fail, AssignOutcome.ok⟩
      ⟨2, 10, none, 6, ImportOutcome.fail, AssignOutcome.ok⟩
      ClaimPhase.start ClaimPhase.start
      [true, false, true, false]).2.1.succeeded = true ∧
    ((runSchedule
      { numbers := [⟨10, "+61255501234", some "sid", some "ep", none, none,
          none, "available", none⟩],
        agents := [], tenants := [⟨1, 1⟩, ⟨2, 1⟩], users := [] }
      ⟨1, 10, none, 5, ImportOutcome.fail, AssignOutcome.ok⟩
      ⟨2, 10, none, 6, ImportOutcome.fail, AssignOutcome.ok⟩
      ClaimPhase.start ClaimPhase.start
      [true, false, true, false]).2.2.succeeded = true) ∧
    (((runSchedule
      { numbers := [⟨10, "+61255501234", some "sid", some "ep", none, none,
          none, "available", none⟩],
        agents := [], tenants := [⟨1, 1⟩, ⟨2, 1⟩], users := [] }
      ⟨1, 10, none, 5, ImportOutcome.fail, AssignOutcome.ok⟩
      ⟨2, 10, none, 6, ImportOutcome.fail, AssignOutcome.ok⟩
      ClaimPhase.start ClaimPhase.start
      [true, false, true, false]).1.numbers.find?
        (fun n => n.id == 10)).map (fun n => n.tenant_id) =
      some (some 2)) ∧
    (runSchedule
      { numbers := [⟨10, "+61255501234", some "sid", some "ep", none, none,
          none, "available", none⟩],
        agents := [], tenants := [⟨1, 1⟩, ⟨2, 1⟩], users := [] }
      ⟨1, 10, none, 5, ImportOutcome.fail, AssignOutcome.ok⟩
      ⟨2, 10, none, 6, ImportOutcome.fail, AssignOutcome.ok⟩
      ClaimPhase.start ClaimPhase.start
      [true, true, false, false]).2.2.succeeded = false) := by
  refine ⟨rfl, rfl, rfl, rfl⟩

/-- Claim C2 (amended): after every sequence of lifecycle operations,
every PhoneNumber satisfies `tenant_id = null ⟺ status = available`, and
`tenant_id = null → assigned_agent_id = null ∧ assigned_user_id = null`.
The full biconditional of the claim fails in the other direction: a number
claimed without an agent has `tenant_id` set while both assignment columns
are null (see the counterexample). -/
theorem pool_exclusivity_invariant (db : Db) (h : Reachable db) :
    ∀ n ∈ db.numbers,
      (n.tenant_id = none ↔ n.status = "available") ∧
      (n.tenant_id = none →
        n.assigned_agent_id = none ∧ n.assigned_user_id = none) :=
  reachable_poolInv h

/-- Witness for the amended C2: the freshly purchased pool number of a
concrete reachable state satisfies the invariant. -/
theorem pool_exclusivity_invariant_witness :
    ((⟨10, "+15550000001", some "sid", none, none, none, none,
        "available", none⟩ : PhoneNumber).tenant_id = none ↔
      (⟨10, "+15550000001", some "sid", none, none, none, none,
        "available", none⟩ : PhoneNumber).status = "available") ∧
    ((⟨10, "+15550000001", some "sid", none, none, none, none,
        "available", none⟩ : PhoneNumber).tenant_id = none →
      (⟨10, "+15550000001", some "sid", none, none, none, none,
        "available", none⟩ : PhoneNumber).assigned_agent_id = none ∧
      (⟨10, "+15550000001", some "sid", none, none, none, none,
        "available", none⟩ : PhoneNumber).assigned_user_id = none) :=
  pool_exclusivity_invariant
    (applyOp { numbers := [], agents := [], tenants := [⟨1, 1⟩], users := [] }
      (Op.purchase 10 (PurchaseOutcome.ok "sid" "+15550000001")
        ImportOutcome.fail))
    (Reachable.step _ _ (Reachable.init [] [⟨1, 1⟩] []))
    ⟨10, "+15550000001", some "sid", none, none, none, none,
      "available", none⟩ (by decide)

/-- Counterexample to C2 as stated: purchase a number, then claim it with
no agent.  The resulting reachable state has a number with `tenant_id`
set, `status = "assigned"`, and BOTH `assigned_agent_id` and
`assigned_user_id` null — so the claimed biconditional
`tenant_id = null ⟺ (assigned_agent_id = null ∧ assigned_user_id = null)`
is false (right side holds, left side does not). -/
theorem pool_exclusivity_biconditional_cex :
    Reachable (applyOp (applyOp
      { numbers := [], agents := [], tenants := [⟨1, 1⟩], users := [] }
      (Op.purchase 10 (PurchaseOutcome.ok "sid" "+15550000001")
        (ImportOutcome.ok (some "ep"))))
      (Op.claim 1 10 none 5 ImportOutcome.fail AssignOutcome.ok)) ∧
    ∃ n ∈ (applyOp (applyOp
      { numbers := [], agents := [], tenants := [⟨1, 1⟩], users := [] }
      (Op.purchase 10 (PurchaseOutcome.ok "sid" "+15550000001")
        (ImportOutcome.ok (some "ep"))))
      (Op.claim 1 10 none 5 ImportOutcome.fail AssignOutcome.ok)).numbers,
      ¬ (n.tenant_id = none ↔
        (n.assigned_agent_id = none ∧ n.assigned_user_id = none)) :=
  ⟨Reachable.step _ _ (Reachable.step _ _ (Reachable.init [] [⟨1, 1⟩] [])),
    by decide⟩

/-- Claim C6 (amended): in every database state reachable through the
exposed lifecycle operations in which every successful voice-provider import
response actually contained a `phone_number_id` (well-formed
outcomes), every PhoneNumber with a non-null `assigned_agent_id` also has
a non-null `elevenlabs_phone_id`.  Without that restriction the claim
fails (see the counterexample): the handlers read the import response with
`.get("phone_number_id")`, which tolerates a missing id, and
`assign_number_to_user` then binds an agent with no import check at all. -/
theorem agent_binding_implies_imported (db : Db) (h : ReachableWF db) :
    ∀ n ∈ db.numbers, n.assigned_agent_id.isSome = true →
      n.elevenlabs_phone_id.isSome = true := by
  intro n hn hagent
  have hpool := reachable_poolInv (reachableWF_reachable h) n hn
  have himp := reachableWF_importedInv h n hn
  apply himp
  cases htid : n.tenant_id with
  | none =>
    obtain ⟨hag, _⟩ := hpool.2 htid
    rw [hag] at hagent
    cases hagent
  | some t => rfl

/-- Witness for the amended C6 on a concrete well-formed-reachable state
containing an agent-bound number (purchase with well-formed import, then
claim with an eligible agent). -/
theorem agent_binding_implies_imported_witness :
    (⟨10, "+15550000001", some "sid", some "ep", some 1, none, some 20,
      "assigned", some 5⟩ : PhoneNumber).elevenlabs_phone_id.isSome =
      true :=
  agent_binding_implies_imported
    (applyOp (applyOp
      { numbers := [], agents := [⟨20, 1, some "ea", "active"⟩],
        tenants := [⟨1, 2⟩], users := [] }
      (Op.purchase 10 (PurchaseOutcome.ok "sid" "+15550000001")
        (ImportOutcome.ok (some "ep"))))
      (Op.claim 1 10 (some 20) 5 ImportOutcome.fail AssignOutcome.ok))
    (ReachableWF.step _ _
      (ReachableWF.step _ _
        (ReachableWF.init [⟨20, 1, some "ea", "active"⟩] [⟨1, 2⟩] [])
        (by decide))
      (by decide))
    ⟨10, "+15550000001", some "sid", some "ep", some 1, none, some 20,
      "assigned", some 5⟩ (by decide) (by decide)

/-- Counterexample to C6 as stated: purchase with a failing import (row
created, no provider id), claim it bare with an import call that returns
success but no `phone_number_id` (`.get` yields null, the handler carries
on), then `assign_number_to_user` with an agent id: the agent is bound with
no import check, yielding a reachable number with
`assigned_agent_id` set and `elevenlabs_phone_id = null`. -/
theorem agent_binding_without_import_cex :
    Reachable (applyOp (applyOp (applyOp
      { numbers := [], agents := [⟨20, 1, some "ea", "active"⟩],
        tenants := [⟨1, 5⟩], users := [⟨30, some 1, none, none⟩] }
      (Op.purchase 10 (PurchaseOutcome.ok "sid" "+15550000001")
        ImportOutcome.fail))
      (Op.claim 1 10 none 5 (ImportOutcome.ok none) AssignOutcome.ok))
      (Op.assignUser 1 10 30 (some 20))) ∧
    ∃ n ∈ (applyOp (applyOp (applyOp
      { numbers := [], agents := [⟨20, 1, some "ea", "active"⟩],
        tenants := [⟨1, 5⟩], users := [⟨30, some 1, none, none⟩] }
      (Op.purchase 10 (PurchaseOutcome.ok "sid" "+15550000001")
        ImportOutcome.fail))
      (Op.claim 1 10 none 5 (ImportOutcome.ok none) AssignOutcome.ok))
      (Op.assignUser 1 10 30 (some 20))).numbers,
      n.assigned_agent_id.isSome = true ∧ n.elevenlabs_phone_id = none :=
  ⟨Reachable.step _ _ (Reachable.step _ _ (Reachable.step _ _
    (Reachable.init [⟨20, 1, some "ea", "active"⟩] [⟨1, 5⟩]
      [⟨30, some 1, none, none⟩]))),
    by decide⟩

end VoxCalls
